import Mathlib

/-!
Verification development for the Zapros search-and-validate pipeline.

Shallow embedding of the core components:
  * the static backlog partition of `LinkCollector._create_threads`
    (src/yandex_service_collect/run.py and src/top_collect_with_ya_metrics/run_top.py),
  * the per-query worker retry loop with stall handling (`LinkCollector.worker`),
  * the query retry loop and two-phase link validation of
    `YandexLinkCollector` (get_link_top.py / get_link.py),
  * the captcha handling loop (`CaptchaSolver.handle_captcha`) and the
    Capsola service client (`solve_captcha`),
  * the batched metrika check (`BatchYandexMetrikaChecker.check_sites_batch`).

External effects (HTTP requests, the browser/WebDriver, the solving service)
are modelled as explicit oracle environments passed to the functions; an
oracle answering `none` models the corresponding Python call raising an
exception.  Machine integers do not overflow in any of the modelled code
paths (all counters are small), so Nat is used throughout.
-/

namespace Zapros

/-! ## Static partition (`LinkCollector._create_threads`)

Python (run.py lines 95-108 / run_top.py lines 108-120):
```
queries_per_thread = len(queries) // self.num_threads
for i in range(self.num_threads):
    start = i * queries_per_thread
    end = len(queries) if i == self.num_threads - 1 else (i + 1) * queries_per_thread
    subset_queries = queries[start:end]
```
-/

/-- Python `len(queries) // num_threads`. -/
def queriesPerThread (L N : Nat) : Nat := L / N

/-- Python `start = i * queries_per_thread`. -/
def sliceStart (L N i : Nat) : Nat := i * queriesPerThread L N

/-- Python `end = len(queries) if i == num_threads - 1 else (i + 1) * queries_per_thread`. -/
def sliceEnd (L N i : Nat) : Nat :=
  if i = N - 1 then L else (i + 1) * queriesPerThread L N

/-- Number of backlog indices assigned to worker `i` (`len(queries[start:end])`,
for the in-range slices produced by `_create_threads`). -/
def sliceSize (L N i : Nat) : Nat := sliceEnd L N i - sliceStart L N i

/-- Query index `j` falls in worker `i`'s slice `queries[start:end]`. -/
def inSlice (L N i j : Nat) : Prop :=
  sliceStart L N i ≤ j ∧ j < sliceEnd L N i

instance (L N i j : Nat) : Decidable (inSlice L N i j) := by
  unfold inSlice; infer_instance

/-- The Python list slice `queries[start:end]` taken by worker `i`. -/
def subsetQueries (queries : List String) (N i : Nat) : List String :=
  (queries.drop (sliceStart queries.length N i)).take
    (sliceEnd queries.length N i - sliceStart queries.length N i)

/-! ## Configuration defaults (src/core/config.py)

Each constant is the default value from `config.py`; the worker loop in
run.py/run_top.py hardcodes the same values (`range(3)`, `> 300`). -/

def SEARCH_MAX_ATTEMPTS : Nat := 3
def CAPTCHA_MAX_ATTEMPTS : Nat := 5
def MAX_ATTEMPTS_PER_QUERY : Nat := 3
def MAX_TIMEOUT_PER_REQUEST : Nat := 300
def MAX_LINKS : Nat := 10

/-! ## String helpers

Substring containment (Python `pat in s`) and the pieces of
`urllib.parse.urlparse` the code uses (`scheme` and `netloc`). -/

/-- Character-list version of Python `s.startswith(pat)`. -/
def charsStartWith : List Char → List Char → Bool
  | [], _ => true
  | _ :: _, [] => false
  | a :: as, b :: bs => (a == b) && charsStartWith as bs

/-- Character-list version of Python `pat in s` (contiguous substring). -/
def charsContain : List Char → List Char → Bool
  | pat, [] => pat.isEmpty
  | pat, c :: rest => charsStartWith pat (c :: rest) || charsContain pat rest

/-- Python `pat in s` on strings. -/
def strContains (s pat : String) : Bool := charsContain pat.toList s.toList

/-- Split a character list at the first occurrence of `sep`: the part
before it and the part after it, or `none` when `sep` does not occur. -/
def splitAtSep (sep : List Char) : List Char → Option (List Char × List Char)
  | [] => if sep.isEmpty then some ([], []) else none
  | c :: rest =>
    if charsStartWith sep (c :: rest) then some ([], (c :: rest).drop sep.length)
    else
      match splitAtSep sep rest with
      | some (pre, post) => some (c :: pre, post)
      | none => none

/-- Python `s.replace(pat, repl)` (all non-overlapping occurrences, left to
right), with a char-count fuel so the recursion is structural; the fuel
suffices for every non-empty pattern, and the code only ever replaces the
fixed pattern `http://`. -/
def charsReplaceFuel (pat repl : List Char) : Nat → List Char → List Char
  | 0, s => s
  | _ + 1, [] => []
  | fuel + 1, c :: rest =>
    if charsStartWith pat (c :: rest) then
      repl ++ charsReplaceFuel pat repl fuel ((c :: rest).drop pat.length)
    else c :: charsReplaceFuel pat repl fuel rest

/-- Python `url.replace(pat, repl)` on strings. -/
def strReplace (url pat repl : String) : String :=
  String.mk (charsReplaceFuel pat.toList repl.toList url.toList.length url.toList)

/-- The `scheme` component of `urlparse(url)`: the part before the first
`://` separator (empty when the URL carries no scheme). -/
def urlScheme (url : String) : String :=
  match splitAtSep "://".toList url.toList with
  | some (pre, _) => String.mk pre
  | none => ""

/-- The `netloc` component of `urlparse(url)`: the host part between the
scheme separator and the first `/`, `?` or `#`. -/
def netloc (url : String) : String :=
  let rest :=
    match splitAtSep "://".toList url.toList with
    | some (_, post) => post
    | none =>
      if charsStartWith "//".toList url.toList then url.toList.drop 2 else []
  String.mk (rest.takeWhile (fun c => !(c == '/' || c == '?' || c == '#')))

/-! ## HTTP oracle

`requests` calls are modelled by an oracle environment; an answer of `none`
models the Python call raising an exception (connection error, timeout). -/

structure HttpEnv where
  /-- `requests.head(url, ...)`: status code, or `none` when the call raises. -/
  head : String → Option Nat
  /-- `requests.get(url, stream=True)` (the truncated GET of
  `_is_site_accessible`): status code, or `none` when the call raises. -/
  getStream : String → Option Nat

/-! ## Phase A: transport check (get_link_top.py lines 192-218, 258-294) -/

/-- Python `_check_https_availability` (lines 258-272): a single
`requests.head` call; keep iff `status_code < 400`; any exception yields
`False`.  Note: no GET fallback on this path. -/
def check_https_availability (env : HttpEnv) (url : String) : Bool :=
  match env.head url with
  | some status => status < 400
  | none => false

/-- Python `_is_site_accessible` (lines 274-294): HEAD, falling back to a
truncated GET when HEAD raises.  This helper exists in the source but is
not called by `_ensure_https` (nor anywhere else in the repository). -/
def is_site_accessible (env : HttpEnv) (url : String) : Bool :=
  match env.head url with
  | some status => status < 400
  | none =>
    match env.getStream url with
    | some status => status < 400
    | none => false

/-- Python `_ensure_https` (lines 192-218): an `https` URL is kept as-is;
otherwise `http://` is rewritten to `https://` and the result is kept iff
`_check_https_availability` accepts it. -/
def ensure_https (env : HttpEnv) (url : String) : Option String :=
  if urlScheme url = "https" then some url
  else
    let https_url := strReplace url "http://" "https://"
    if check_https_availability env https_url then some https_url else none

/-- The list of URLs `_ensure_https` probes over the network (the
`requests.head` calls issued on its behalf): empty for an already-`https`
URL, the rewritten URL otherwise. -/
def ensure_https_probes (url : String) : List String :=
  if urlScheme url = "https" then []
  else [strReplace url "http://" "https://"]

/-! ## Candidate collection (get_link_top.py `_collect_and_filter_by_https`) -/

/-- One `li` search-result element.  `href = none` models
`find_element` / `get_attribute` raising or returning `None` (the item is
skipped); an empty string is skipped by the `if href:` truthiness test
without counting as processed. -/
structure SearchItem where
  href : Option String

/-- The `for item in search_items` loop of `_collect_and_filter_by_https`
(lines 160-184), carrying `https_links` (acc) and `processed_count`.
Returns the accumulated HTTPS links and the final processed count. -/
def collect_loop (env : HttpEnv) (maxLinks : Nat) :
    List SearchItem → Nat → List String → List String × Nat
  | [], processed, acc => (acc, processed)
  | item :: rest, processed, acc =>
    if maxLinks ≤ processed then (acc, processed)
    else
      match item.href with
      | none => collect_loop env maxLinks rest processed acc
      | some href =>
        if href = "" then collect_loop env maxLinks rest processed acc
        else
          match ensure_https env href with
          | some hurl => collect_loop env maxLinks rest (processed + 1) (acc ++ [hurl])
          | none => collect_loop env maxLinks rest (processed + 1) acc

/-- Python `_collect_and_filter_by_https` (lines 138-190).  `page = none`
models the `wait.until` lookup of the `search-result` element raising, in
which case the outer `except` returns `[]`. -/
def collect_and_filter_by_https (env : HttpEnv) (page : Option (List SearchItem))
    (maxLinks : Nat) : List String :=
  match page with
  | none => []
  | some items => (collect_loop env maxLinks items 0 []).1

/-- The value of `processed_count` when the collection loop finishes: the
number of candidate links the attempt inspected. -/
def inspectedCount (env : HttpEnv) (page : Option (List SearchItem))
    (maxLinks : Nat) : Nat :=
  match page with
  | none => 0
  | some items => (collect_loop env maxLinks items 0 []).2

/-! ## Phase B: batched metrika check (check_yandex_metrika.py)

The shared WebDriver session is identified by a `Nat` session id; a
navigation is one `driver.get` call.  The two fixed metrika signature
regexes of `_check_metrika_in_source` are modelled by the oracle predicate
`hasMetrikaSrc` on page text (the claims are about the control flow around
the match, not about the regex engine). -/

/-- Outcome of one `driver.get(url)` plus the body wait in
`_check_via_shared_webdriver`. -/
inductive NavOutcome where
  | timeout
  /-- A `WebDriverException`: the code quits the shared driver and tries to
  recreate it. -/
  | wdError
  /-- Any other exception (the final `except` clause). -/
  | failure
  /-- The page loaded; `source` is `driver.page_source`, `js` the combined
  result of the `_check_metrika_via_js` script probes. -/
  | page (source : String) (js : Bool)

structure BatchEnv where
  /-- `requests.get(url, timeout=5, headers=...)` in
  `_quick_check_via_requests`: status code and body, or `none` on
  exception. -/
  quick : String → Option (Nat × String)
  /-- `_check_metrika_in_source`: whether a page text matches one of the
  fixed metrika signature patterns. -/
  hasMetrikaSrc : String → Bool
  /-- `driver.get` on a given session id and URL. -/
  nav : Nat → String → NavOutcome
  /-- `WebDriverManager.get_chrome_driver` during recreation: the k-th
  recreation attempt yields a fresh session id, or `none` when creation
  itself raises (swallowed by `except: pass`, the old handle is kept). -/
  newDriver : Nat → Option Nat
  /-- `WebDriverManager.get_chrome_driver` in `__enter__`: the initial
  shared session, or `none` when creation raises. -/
  initDriver : Option Nat

/-- Mutable state of `BatchYandexMetrikaChecker` during a batch. -/
structure BatchState where
  /-- The current shared session (`self.driver`). -/
  driver : Nat
  /-- Number of recreation attempts performed so far. -/
  created : Nat
deriving DecidableEq

/-- Protocol normalization used by both check paths: prepend `https://`
when the URL starts with neither `http://` nor `https://`. -/
def normalizeUrl (url : String) : String :=
  if charsStartWith "http://".toList url.toList || charsStartWith "https://".toList url.toList then url
  else "https://" ++ url

/-- Python `_quick_check_via_requests` (lines 90-108): plain HTTP fetch;
metrika is reported present iff the fetch succeeds with status 200 and the
body matches a signature pattern; any exception yields `False`. -/
def quick_check_via_requests (env : BatchEnv) (url : String) : Bool :=
  match env.quick (normalizeUrl url) with
  | some (status, body) => if status = 200 then env.hasMetrikaSrc body else false
  | none => false

/-- Python `_check_via_shared_webdriver` (lines 110-152).  Returns the
verdict, the state after the call, and the number of navigations issued
(always exactly one here).  On `WebDriverException` the shared driver is
quit and recreated for the rest of the batch; when recreation itself
raises, the old handle is kept (`except: pass`). -/
def check_via_shared_webdriver (env : BatchEnv) (st : BatchState) (url : String) :
    Bool × BatchState × Nat :=
  match env.nav st.driver (normalizeUrl url) with
  | .page source js => ((env.hasMetrikaSrc source || js), st, 1)
  | .timeout => (false, st, 1)
  | .failure => (false, st, 1)
  | .wdError =>
    match env.newDriver st.created with
    | some d => (false, ⟨d, st.created + 1⟩, 1)
    | none => (false, ⟨st.driver, st.created + 1⟩, 1)

/-- Python `check_sites_batch` (lines 57-88).  One record per input URL, in
order: the URL, its verdict, and the number of browser navigations issued
while checking it.  (The Python version stores verdicts in a dict keyed by
URL; the record list keeps one entry per input URL, which coincides with
the dict for duplicate-free batches.)  Both per-URL helpers catch their own
exceptions, so the per-URL `except` that stores `False` is unreachable
beyond them. -/
def check_sites_batch (env : BatchEnv) (st : BatchState) :
    List String → List (String × Bool × Nat) × BatchState
  | [] => ([], st)
  | url :: rest =>
    if quick_check_via_requests env url then
      let (res, st') := check_sites_batch env st rest
      ((url, true, 0) :: res, st')
    else
      let (v, st1, n) := check_via_shared_webdriver env st url
      let (res, st') := check_sites_batch env st1 rest
      ((url, v, n) :: res, st')

/-- Python `_batch_check_metrika` (get_link_top.py lines 220-254): empty
input short-circuits; a failure to create the shared driver in `__enter__`
is caught and yields `[]`; otherwise the URLs whose batch verdict is `True`
are returned in order. -/
def batch_check_metrika (env : BatchEnv) (urls : List String) : List String :=
  if urls = [] then []
  else
    match env.initDriver with
    | none => []
    | some d0 =>
      (((check_sites_batch env ⟨d0, 0⟩ urls).1.filter (fun r => r.2.1)).map (fun r => r.1))

/-! ## Query attempt and retry loop (get_link_top.py `get_yandex_links`) -/

/-- Python `_find_and_check_links` (lines 108-136): Phase A collection; an
empty candidate set yields `([], False)`; otherwise Phase B runs and the
attempt reports `(valid_links, True)` — even when zero links validate. -/
def find_and_check_links (env : HttpEnv) (benv : BatchEnv)
    (page : Option (List SearchItem)) (maxLinks : Nat) : List String × Bool :=
  let candidate_links := collect_and_filter_by_https env page maxLinks
  if candidate_links = [] then ([], false)
  else (batch_check_metrika benv candidate_links, true)

/-- Everything one retry attempt of `get_yandex_links` observes. -/
structure AttemptEnv where
  /-- An exception raised by the navigation / timeout / captcha steps
  (lines 64-73) before `_find_and_check_links` runs; caught by the
  per-attempt `except`. -/
  raises : Bool
  page : Option (List SearchItem)
  http : HttpEnv
  batch : BatchEnv

/-- The `for attempt in range(max_attempts)` loop of `get_yandex_links`
(get_link_top.py lines 62-101): the remaining attempts are the list tail.
A raising attempt retries (returning `[]` from the `except` when it was the
last); a `processed_successfully = True` attempt ends the loop with its
links; otherwise the loop retries and `found_links` stays `[]`. -/
def run_search_attempts (maxLinks : Nat) : List AttemptEnv → List String
  | [] => []
  | e :: rest =>
    if e.raises then
      match rest with
      | [] => []
      | _ :: _ => run_search_attempts maxLinks rest
    else
      let (links, ok) := find_and_check_links e.http e.batch e.page maxLinks
      if ok then links else run_search_attempts maxLinks rest

/-- Number of attempts the retry loop executes. -/
def count_search_attempts (maxLinks : Nat) : List AttemptEnv → Nat
  | [] => 0
  | e :: rest =>
    if e.raises then 1 + count_search_attempts maxLinks rest
    else if (find_and_check_links e.http e.batch e.page maxLinks).2 then 1
    else 1 + count_search_attempts maxLinks rest

/-- `YandexLinkCollector.get_yandex_links` (top variant): the loop runs over
at most `SEARCH_MAX_ATTEMPTS` attempt environments. -/
def get_yandex_links_top (envs : List AttemptEnv) (maxLinks : Nat) : List String :=
  run_search_attempts maxLinks (envs.take SEARCH_MAX_ATTEMPTS)

/-! ## Module-level entry points (C10)

The collector computation handed to the wrapper is an `Except`: `.error`
models an exception escaping `YandexLinkCollector` construction or its
method (the method body itself catches per-attempt exceptions, so under
this model it never raises — see `run_search_attempts`). -/

/-- Python `get_top_links` (get_link_top.py lines 297-321): the whole body
sits in `try/except`; an escaping exception yields `([], False)`, and every
non-raising run yields `(links, True)`. -/
def get_top_links (run : Except String (List String)) : List String × Bool :=
  match run with
  | .ok links => (links, true)
  | .error _ => ([], false)

/-- Python `get_yandex_links` module function (get_link.py lines 114-122):
an escaping exception yields `[]`. -/
def get_yandex_links_entry (run : Except String (List String)) : List String :=
  match run with
  | .ok links => links
  | .error _ => []

/-! ## Worker loop with stall handling (run_top.py lines 31-75 / run.py 19-60) -/

/-- What one worker attempt at a query observes: the wall-clock duration of
the `get_top_links` call and its returned value. -/
structure AttemptResult where
  elapsed : Nat
  links : List String
  ok : Bool

/-- Worker-visible state: how many WebDriver sessions have been created
(`WebDriverManager.init_driver` calls after the initial one) and the lines
appended to the result file. -/
structure WorkerState where
  sessionsCreated : Nat
  sink : List String
deriving DecidableEq

/-- The `for attempt in range(3)` loop of `LinkCollector.worker` for one
query.  `i` is the attempt index, the fuel starts at
`MAX_ATTEMPTS_PER_QUERY`.  A stalled attempt (`elapsed_time > 300`) quits
the driver, creates a fresh one and continues; a successful attempt writes
its links (if any) under the lock and breaks; a failed attempt retries. -/
def worker_attempts (env : Nat → AttemptResult) :
    Nat → Nat → WorkerState → WorkerState
  | _, 0, st => st
  | i, fuel + 1, st =>
    let a := env i
    if MAX_TIMEOUT_PER_REQUEST < a.elapsed then
      worker_attempts env (i + 1) fuel
        { st with sessionsCreated := st.sessionsCreated + 1 }
    else if a.ok then
      if a.links = [] then st
      else { st with sink := st.sink ++ a.links }
    else worker_attempts env (i + 1) fuel st

/-- One query's pass through the worker retry loop. -/
def process_query (env : Nat → AttemptResult) (st : WorkerState) : WorkerState :=
  worker_attempts env 0 MAX_ATTEMPTS_PER_QUERY st

/-! ## Capsola service client (src/captcha/capsola.py) -/

/-- Result of the Capsola API request helpers. -/
structure CapsolaResponse where
  success : Bool
  data : Option String
  error : Option String
deriving DecidableEq

/-- One HTTP answer from the Capsola API.  `apiRaise` covers a transport
exception, a `raise_for_status` failure, or a malformed JSON body (a missing
key raises `KeyError`, caught by the same `except`). -/
inductive ApiResp where
  | apiRaise
  | json (status : Int) (response : String)

/-- Environment for one `solve_captcha` call. -/
structure CapsolaEnv where
  /-- `CAPSOLA_API_KEY` found in the environment (`CapsolaAPI.__init__`
  raises `ValueError` otherwise, caught by `solve_captcha`). -/
  apiKey : Bool
  /-- `requests.get(img_url)` plus `raise_for_status`: `none` models an
  exception. -/
  imgFetch : Option Unit
  /-- The `/create` endpoint answer. -/
  createResp : ApiResp
  /-- The successive `/result` endpoint answers.  Python polls until a
  terminal answer or an exception; the list holds the answers actually
  produced, so a run that terminates corresponds to a list containing a
  terminal entry. -/
  pollResps : List ApiResp

/-- Python `CapsolaAPI._create_task` (lines 38-54): task id on
`status == 1`, otherwise `None`; exceptions yield `None`. -/
def create_task (r : ApiResp) : Option String :=
  match r with
  | .apiRaise => none
  | .json status response => if status = 1 then some response else none

/-- Python `CapsolaAPI._get_result` (lines 56-75): poll until `status == 1`
(success), or `status == 0` with a payload other than `CAPCHA_NOT_READY`
(failure); exceptions yield `None`.  An exhausted answer list corresponds to
the connection eventually failing. -/
def get_result : List ApiResp → Option String
  | [] => none
  | .apiRaise :: _ => none
  | .json status response :: rest =>
    if status = 1 then some response
    else if status = 0 && response ≠ "CAPCHA_NOT_READY" then none
    else get_result rest

/-- Shared skeleton of `solve_smart_captcha` / `solve_text_captcha`
(lines 77-132): fetch the challenge image, create the task, poll for the
result; every failure path returns a `success := false` response instead of
raising. -/
def solve_image_based_captcha (env : CapsolaEnv) : CapsolaResponse :=
  match env.imgFetch with
  | none => { success := false, data := none, error := some "exception" }
  | some _ =>
    match create_task env.createResp with
    | none => { success := false, data := none, error := some "Не удалось создать задачу" }
    | some _ =>
      match get_result env.pollResps with
      | some resp => { success := true, data := some resp, error := none }
      | none => { success := false, data := none, error := some "Не удалось получить результат" }

/-- Python `solve_puzzle_captcha` (lines 134-155): as above but without the
image fetch (the task payload is the serialized page source). -/
def solve_puzzle_captcha (env : CapsolaEnv) : CapsolaResponse :=
  match create_task env.createResp with
  | none => { success := false, data := none, error := some "Не удалось создать задачу" }
  | some _ =>
    match get_result env.pollResps with
    | some resp => { success := true, data := some resp, error := none }
    | none => { success := false, data := none, error := some "Не удалось получить результат" }

/-- Python module function `solve_captcha` (lines 158-175): dispatches on
the captcha type; the `ValueError` from a missing API key and any other
exception are caught and turned into a `success := false` response. -/
def solve_captcha (env : CapsolaEnv) (captcha_type : String) : CapsolaResponse :=
  if !env.apiKey then
    { success := false, data := none, error := some "API ключ не найден в .env файле" }
  else if captcha_type = "smart" then solve_image_based_captcha env
  else if captcha_type = "text" then solve_image_based_captcha env
  else if captcha_type = "puzzle" then solve_puzzle_captcha env
  else { success := false, data := none,
         error := some ("Неизвестный тип капчи: " ++ captcha_type) }

/-! ## Captcha solver loop (src/captcha/captcha_solver.py `handle_captcha`) -/

/-- The DOM facts one iteration of the `while` loop observes. -/
structure CaptchaPage where
  /-- `_is_captcha_form_present()` at the loop guard. -/
  formPresent : Bool
  isImage : Bool
  isText : Bool
  isPuzzle : Bool
  /-- `_is_captcha_solved()` checked inside the `elif` chain. -/
  solvedMid : Bool
  /-- `_is_captcha_solved()` checked after the `try` block. -/
  solvedAfter : Bool
  /-- An exception inside the classification / solve body, caught by the
  inner `except` (the `_solve_*` methods themselves never raise: each
  catches internally). -/
  bodyRaises : Bool

structure CaptchaEnv where
  /-- `_click_verification_button` raising (re-raised, then caught by the
  outer `except` of `handle_captcha`). -/
  clickVerificationRaises : Bool
  /-- The captcha form becomes visible within the bounded wait. -/
  formAppears : Bool
  /-- Page state at the start of cycle `n` (0-based). -/
  page : Nat → CaptchaPage
  /-- Solving-service behavior during cycle `n`. -/
  service : Nat → CapsolaEnv

/-- One iteration body (the `try` block, lines 53-71): classification in
fixed priority order, one solve round whose `CapsolaResponse` is used only
for clicking and never alters control flow, the `solved` branch breaking
out.  `.error` models an exception caught by the inner `except`;
`.ok true` is the mid-loop `break`. -/
def cycle_body (p : CaptchaPage) (senv : CapsolaEnv) : Except String Bool :=
  if p.bodyRaises then .error "exception in captcha classification"
  else if p.isImage then
    let _ := solve_captcha senv "smart"
    .ok false
  else if p.isText then
    let _ := solve_captcha senv "text"
    .ok false
  else if p.isPuzzle then
    let _ := solve_captcha senv "puzzle"
    .ok false
  else if p.solvedMid then .ok true
  else .ok false

/-- The `while _is_captcha_form_present() and attempts < max_attempts` loop
(lines 46-79).  `n` counts completed cycles (the value of `attempts`); the
fuel is `max_attempts - attempts`.  Returns the number of classify → solve →
check cycles executed. -/
def captcha_loop (env : CaptchaEnv) : Nat → Nat → Nat
  | n, 0 => n
  | n, fuel + 1 =>
    let p := env.page n
    if p.formPresent then
      match cycle_body p (env.service n) with
      | .ok true => n + 1
      | _ =>
        if p.solvedAfter then n + 1
        else captcha_loop env (n + 1) fuel
    else n

/-- How `handle_captcha` returned (always normally: every internal
exception is caught, so the model needs no error case). -/
inductive CaptchaOutcome where
  | verificationFailed
  | formNeverAppeared
  | loopFinished (cycles : Nat)
deriving DecidableEq

/-- Python `handle_captcha` (lines 34-84). -/
def handle_captcha (env : CaptchaEnv) : CaptchaOutcome :=
  if env.clickVerificationRaises then .verificationFailed
  else if !env.formAppears then .formNeverAppeared
  else .loopFinished (captcha_loop env 0 CAPTCHA_MAX_ATTEMPTS)

/-! ## Domain-scoped extraction (get_link.py `_find_matching_links`) -/

/-- The `for item in search_items` loop (lines 90-104): each item may yield
an href (`none` models the inner `find_element` raising, the item is
skipped); an href is kept when non-empty and the target domain is contained
in its parsed host. -/
def find_matching_links_loop (domain : String) (maxLinks : Nat) :
    List (Option String) → List String → List String
  | [], acc => acc
  | item :: rest, acc =>
    if maxLinks ≤ acc.length then acc
    else
      match item with
      | none => find_matching_links_loop domain maxLinks rest acc
      | some href =>
        if href ≠ "" && strContains (netloc href) domain then
          find_matching_links_loop domain maxLinks rest (acc ++ [href])
        else find_matching_links_loop domain maxLinks rest acc

/-- Python `_find_matching_links` (lines 78-111); `page = none` models the
`search-result` lookup raising, handled by returning `[]`. -/
def find_matching_links (domain : String) (maxLinks : Nat)
    (page : Option (List (Option String))) : List String :=
  match page with
  | none => []
  | some items => find_matching_links_loop domain maxLinks items []

theorem sliceStart_le_sliceEnd (L N i : Nat) : sliceStart L N i ≤ sliceEnd L N i := by
  unfold sliceStart sliceEnd queriesPerThread
  by_cases h : i = N - 1
  · simp only [h, if_pos rfl]
    calc (N - 1) * (L / N) ≤ (L / N) * N := by
          rw [mul_comm]; exact Nat.mul_le_mul_left _ (Nat.sub_le _ _)
    _ ≤ L := Nat.div_mul_le_self L N
  · simp only [if_neg h]
    exact Nat.mul_le_mul_right _ (Nat.le_succ i)

/-- Two distinct slices never share a query index. -/
theorem slices_disjoint (L N i₁ i₂ j : Nat) (h12 : i₁ < i₂) (h2 : i₂ < N)
    (ha : inSlice L N i₁ j) (hb : inSlice L N i₂ j) : False := by
  obtain ⟨-, ha2⟩ := ha
  obtain ⟨hb1, -⟩ := hb
  have h1ne : i₁ ≠ N - 1 := by omega
  have hend : sliceEnd L N i₁ ≤ sliceStart L N i₂ := by
    unfold sliceEnd sliceStart
    simp only [if_neg h1ne]
    exact Nat.mul_le_mul_right _ h12
  omega

/-- Every in-range query index lies in some slice. -/
theorem slices_complete (L N j : Nat) (hN : 0 < N) (hLN : N ≤ L) (hj : j < L) :
    ∃ i, i < N ∧ inSlice L N i j := by
  set q := L / N with hqdef
  have hq : 0 < q := Nat.le_div_iff_mul_le hN |>.mpr (by omega)
  by_cases hlast : (N - 1) * q ≤ j
  · exact ⟨N - 1, by omega, le_of_eq (by simp [sliceStart, queriesPerThread]) |>.trans hlast,
      by simp [sliceEnd, hj]⟩
  · refine ⟨j / q, ?_, ?_, ?_⟩
    · -- j < (N-1)*q forces j/q < N-1 < N
      have : j / q < N - 1 := by
        by_contra hge
        push_neg at hge
        have : (N - 1) * q ≤ (j / q) * q := Nat.mul_le_mul_right _ hge
        have : (j / q) * q ≤ j := Nat.div_mul_le_self j q
        omega
      omega
    · simpa [sliceStart, queriesPerThread] using Nat.div_mul_le_self j q
    · have hne : j / q ≠ N - 1 := by
        intro h
        have h1 : (j / q) * q ≤ j := Nat.div_mul_le_self j q
        rw [h] at h1
        exact hlast h1
      have hub : j < (j / q + 1) * q := by
        have hmod := Nat.mod_add_div j q
        have hlt : j % q < q := Nat.mod_lt _ hq
        calc j = j % q + q * (j / q) := hmod.symm
        _ < q + q * (j / q) := by omega
        _ = (j / q + 1) * q := by ring
      simpa [sliceEnd, queriesPerThread, if_neg hne] using hub

/-- Sizes: every slice but the last has exactly `L / N` indices. -/
theorem sliceSize_of_lt (L N i : Nat) (hi : i < N - 1) :
    sliceSize L N i = L / N := by
  unfold sliceSize sliceEnd sliceStart queriesPerThread
  rw [if_neg (by omega)]
  rw [Nat.add_mul, Nat.one_mul, Nat.add_sub_cancel_left]

/-- Sizes: the last slice has exactly `L / N + L % N` indices. -/
theorem sliceSize_last (L N : Nat) (hN : 0 < N) :
    sliceSize L N (N - 1) = L / N + L % N := by
  unfold sliceSize sliceEnd sliceStart queriesPerThread
  rw [if_pos rfl, Nat.sub_mul, Nat.one_mul]
  have hmod := Nat.mod_add_div L N
  have hle : L / N ≤ N * (L / N) := Nat.le_mul_of_pos_left _ hN
  generalize hP : N * (L / N) = P at hmod hle ⊢
  generalize hD : L / N = D at hle ⊢
  generalize hM : L % N = M at hmod ⊢
  omega

/-! ## C1: the static partition -/

/-- C1 counterexample: at a backlog of length 7 split over 4 workers
(`N ≤ L` holds) `_create_threads` produces slice sizes 1, 1, 1, 4, so the
claimed "all slice sizes differ by at most one element" fails. -/
theorem claim_partition_sizes_counterexample :
    4 ≤ 7 ∧ sliceSize 7 4 0 = 1 ∧ sliceSize 7 4 3 = 4 ∧
      ¬ (∀ i1, i1 < 4 → ∀ i2, i2 < 4 → sliceSize 7 4 i2 ≤ sliceSize 7 4 i1 + 1) := by
  decide

/-- C1 (amended): for `0 < N ≤ L` the static partition of `_create_threads`
is complete and disjoint — every query index lies in exactly one worker's
slice — the first `N - 1` slices have exactly `L / N` indices each, and the
last slice has `L / N + L % N` (so sizes differ by at most one only when
`L % N ≤ 1`; the whole remainder lands in the last slice). -/
theorem partition_complete_disjoint (L N : Nat) (hN : 0 < N) (hLN : N ≤ L) :
    (∀ j, j < L → ∃! i, i < N ∧ inSlice L N i j) ∧
    (∀ i, i < N - 1 → sliceSize L N i = L / N) ∧
    sliceSize L N (N - 1) = L / N + L % N := by
  refine ⟨?_, fun i hi => sliceSize_of_lt L N i hi, sliceSize_last L N hN⟩
  intro j hj
  obtain ⟨i, hiN, hin⟩ := slices_complete L N j hN hLN hj
  refine ⟨i, ⟨hiN, hin⟩, ?_⟩
  rintro i' ⟨hi'N, hin'⟩
  by_contra hne
  rcases Nat.lt_or_ge i' i with h | h
  · exact slices_disjoint L N i' i j h hiN hin' hin
  · exact slices_disjoint L N i i' j (lt_of_le_of_ne h (Ne.symm hne)) hi'N hin hin'

/-- Witness for the amended C1, at `L = 7`, `N = 4`. -/
theorem partition_complete_disjoint_witness :
    (0 < 4 ∧ 4 ≤ 7) ∧
    ((∀ j, j < 7 → ∃! i, i < 4 ∧ inSlice 7 4 i j) ∧
     (∀ i, i < 4 - 1 → sliceSize 7 4 i = 7 / 4) ∧
     sliceSize 7 4 (4 - 1) = 7 / 4 + 7 % 4) :=
  ⟨⟨by decide, by decide⟩, partition_complete_disjoint 7 4 (by decide) (by decide)⟩

/-! ## C8: domain-scoped extraction -/

theorem find_matching_links_loop_length (domain : String) (maxLinks : Nat)
    (items : List (Option String)) :
    ∀ acc : List String, acc.length ≤ maxLinks →
      (find_matching_links_loop domain maxLinks items acc).length ≤ maxLinks := by
  induction items with
  | nil => intro acc h; simpa [find_matching_links_loop] using h
  | cons item rest ih =>
    intro acc h
    simp only [find_matching_links_loop]
    by_cases hle : maxLinks ≤ acc.length
    · simpa [hle] using h
    · simp only [if_neg hle]
      cases item with
      | none => exact ih acc h
      | some href =>
        by_cases hk : (href ≠ "" && strContains (netloc href) domain) = true
        · simp only [hk, if_true]
          exact ih (acc ++ [href]) (by simp; omega)
        · simp only [hk, if_false]
          exact ih acc h

theorem find_matching_links_loop_sublist (domain : String) (maxLinks : Nat)
    (items : List (Option String)) :
    ∀ acc : List String, ∃ t,
      find_matching_links_loop domain maxLinks items acc = acc ++ t ∧
        List.Sublist t (items.filterMap id) := by
  induction items with
  | nil => intro acc; exact ⟨[], by simp [find_matching_links_loop], List.nil_sublist _⟩
  | cons item rest ih =>
    intro acc
    simp only [find_matching_links_loop]
    by_cases hle : maxLinks ≤ acc.length
    · exact ⟨[], by simp [hle], List.nil_sublist _⟩
    · simp only [if_neg hle]
      cases item with
      | none =>
        obtain ⟨t, heq, hsub⟩ := ih acc
        exact ⟨t, heq, by simpa using hsub⟩
      | some href =>
        by_cases hk : (href ≠ "" && strContains (netloc href) domain) = true
        · simp only [hk, if_true]
          obtain ⟨t, heq, hsub⟩ := ih (acc ++ [href])
          refine ⟨href :: t, by simpa [List.append_assoc] using heq, ?_⟩
          simpa using List.Sublist.cons₂ href hsub
        · simp only [hk, if_false]
          obtain ⟨t, heq, hsub⟩ := ih acc
          refine ⟨t, heq, ?_⟩
          simpa using List.Sublist.cons href hsub

theorem find_matching_links_loop_mem (domain : String) (maxLinks : Nat)
    (items : List (Option String)) :
    ∀ acc : List String,
      (∀ l ∈ acc, l ≠ "" ∧ strContains (netloc l) domain = true) →
      ∀ l ∈ find_matching_links_loop domain maxLinks items acc,
        l ≠ "" ∧ strContains (netloc l) domain = true := by
  induction items with
  | nil => intro acc hacc; simpa [find_matching_links_loop] using hacc
  | cons item rest ih =>
    intro acc hacc
    simp only [find_matching_links_loop]
    by_cases hle : maxLinks ≤ acc.length
    · simpa [hle] using hacc
    · simp only [if_neg hle]
      cases item with
      | none => exact ih acc hacc
      | some href =>
        by_cases hk : (href ≠ "" && strContains (netloc href) domain) = true
        · simp only [hk, if_true]
          refine ih (acc ++ [href]) ?_
          intro l hl
          rcases List.mem_append.mp hl with hl | hl
          · exact hacc l hl
          · have hlh : l = href := by simpa using hl
            subst hlh
            simpa [Bool.and_eq_true, decide_eq_true_eq] using hk
        · simp only [hk, if_false]
          exact ih acc hacc

/-- C8: `_find_matching_links` returns at most `max_links` links, the
returned links form an in-order subsequence of the hrefs present on the
result page (ranking order preserved), and every returned link is non-empty
with the target domain contained in its parsed host. -/
theorem find_matching_links_spec (domain : String) (maxLinks : Nat)
    (page : Option (List (Option String))) :
    (find_matching_links domain maxLinks page).length ≤ maxLinks ∧
    List.Sublist (find_matching_links domain maxLinks page)
      ((page.getD []).filterMap id) ∧
    ∀ l ∈ find_matching_links domain maxLinks page,
      l ≠ "" ∧ strContains (netloc l) domain = true := by
  cases page with
  | none => simp [find_matching_links]
  | some items =>
    refine ⟨find_matching_links_loop_length domain maxLinks items [] (by simp), ?_, ?_⟩
    · obtain ⟨t, heq, hsub⟩ := find_matching_links_loop_sublist domain maxLinks items []
      simpa [find_matching_links, heq] using hsub
    · exact find_matching_links_loop_mem domain maxLinks items [] (by simp)

/-- Witness for C8 on a concrete result page. -/
theorem find_matching_links_spec_witness :
    (find_matching_links "ex.com" 1
        (some [some "https://sub.ex.com/a", some "https://other.org/b", none])).length ≤ 1 ∧
    List.Sublist
      (find_matching_links "ex.com" 1
        (some [some "https://sub.ex.com/a", some "https://other.org/b", none]))
      (((some [some "https://sub.ex.com/a", some "https://other.org/b", none] :
          Option (List (Option String))).getD []).filterMap id) ∧
    ∀ l ∈ find_matching_links "ex.com" 1
        (some [some "https://sub.ex.com/a", some "https://other.org/b", none]),
      l ≠ "" ∧ strContains (netloc l) "ex.com" = true :=
  find_matching_links_spec "ex.com" 1
    (some [some "https://sub.ex.com/a", some "https://other.org/b", none])

/-! ## C2: the query retry loop of the top collector -/

/-- The processed-successfully flag is true exactly when Phase A produced at
least one HTTPS survivor. -/
theorem find_and_check_links_flag (env : HttpEnv) (benv : BatchEnv)
    (page : Option (List SearchItem)) (k : Nat) :
    ((find_and_check_links env benv page k).2 = true ↔
      collect_and_filter_by_https env page k ≠ []) := by
  unfold find_and_check_links
  by_cases h : collect_and_filter_by_https env page k = [] <;> simp [h]

theorem count_search_attempts_le_length (k : Nat) :
    ∀ envs : List AttemptEnv, count_search_attempts k envs ≤ envs.length := by
  intro envs
  induction envs with
  | nil => simp [count_search_attempts]
  | cons e rest ih =>
    simp only [count_search_attempts, List.length_cons]
    by_cases hr : e.raises <;> by_cases hf : (find_and_check_links e.http e.batch e.page k).2
      <;> simp [hr, hf] <;> omega

/-- An HTTP oracle in which every request raises. -/
def noHttpEnv : HttpEnv := { head := fun _ => none, getStream := fun _ => none }

/-- A batch-checker oracle that never finds anything. -/
def inertBatchEnv : BatchEnv :=
  { quick := fun _ => none, hasMetrikaSrc := fun _ => false,
    nav := fun _ _ => .failure, newDriver := fun _ => none, initDriver := none }

/-- C2 counterexample: on a result page with one inspectable candidate
(`http://a.com`) whose HTTPS probe fails, `_find_and_check_links` inspects
one candidate (`processed_count = 1`) yet returns a processed-successfully
flag of `false`, so another attempt is made — contradicting the claim that
inspecting at least one candidate yields `true`. -/
theorem claim_inspected_implies_flag_counterexample :
    inspectedCount noHttpEnv (some [⟨some "http://a.com"⟩]) 10 = 1 ∧
    (find_and_check_links noHttpEnv inertBatchEnv
        (some [⟨some "http://a.com"⟩]) 10).2 = false := by
  exact ⟨rfl, rfl⟩

/-- C2 (amended): in the retry loop of the top `get_yandex_links`, an
attempt's processed-successfully flag is true iff Phase A kept at least one
candidate (an attempt that merely inspected candidates, all failing the
HTTPS check, is retried); a true flag ends the loop after that attempt,
returning that attempt's links; a false flag consumes the attempt and
retries; and at most `SEARCH_MAX_ATTEMPTS = 3` attempts run in total. -/
theorem retry_loop_spec (e : AttemptEnv) (rest envs : List AttemptEnv) (k : Nat)
    (hr : e.raises = false) :
    ((find_and_check_links e.http e.batch e.page k).2 = true ↔
      collect_and_filter_by_https e.http e.page k ≠ []) ∧
    ((find_and_check_links e.http e.batch e.page k).2 = true →
      run_search_attempts k (e :: rest) = (find_and_check_links e.http e.batch e.page k).1 ∧
      count_search_attempts k (e :: rest) = 1) ∧
    ((find_and_check_links e.http e.batch e.page k).2 = false →
      count_search_attempts k (e :: rest) = 1 + count_search_attempts k rest) ∧
    (count_search_attempts k (envs.take SEARCH_MAX_ATTEMPTS) ≤ SEARCH_MAX_ATTEMPTS ∧
      SEARCH_MAX_ATTEMPTS = 3) := by
  refine ⟨find_and_check_links_flag e.http e.batch e.page k, ?_, ?_, ?_, rfl⟩
  · intro hf
    rcases hfc : find_and_check_links e.http e.batch e.page k with ⟨links, ok⟩
    rw [hfc] at hf
    simp only at hf
    subst hf
    constructor
    · simp [run_search_attempts, hr, hfc]
    · simp [count_search_attempts, hr, hfc]
  · intro hf
    simp [count_search_attempts, hr, hf]
  · calc count_search_attempts k (envs.take SEARCH_MAX_ATTEMPTS)
        ≤ (envs.take SEARCH_MAX_ATTEMPTS).length := count_search_attempts_le_length k _
    _ ≤ SEARCH_MAX_ATTEMPTS := by simp [List.length_take]

/-- An HTTP oracle in which every request answers 200. -/
def okHttpEnv : HttpEnv := { head := fun _ => some 200, getStream := fun _ => none }

/-- An attempt whose single candidate passes the HTTPS probe. -/
def okAttemptEnv : AttemptEnv :=
  { raises := false, page := some [⟨some "http://a.com"⟩],
    http := okHttpEnv, batch := inertBatchEnv }

/-- Witness for the amended C2: a successful first attempt (one candidate
kept by Phase A, metrika check unavailable) ends the loop at once. -/
theorem retry_loop_spec_witness :
    run_search_attempts 10 [okAttemptEnv] =
      (find_and_check_links okAttemptEnv.http okAttemptEnv.batch okAttemptEnv.page 10).1 ∧
    count_search_attempts 10 [okAttemptEnv] = 1 :=
  (retry_loop_spec okAttemptEnv [] [] 10 rfl).2.1 (by decide)

/-! ## C5: Phase A transport check -/

/-- An HTTP oracle where every HEAD raises and every truncated GET answers
200. -/
def headFailGetOkEnv : HttpEnv := { head := fun _ => none, getStream := fun _ => some 200 }

/-- C5 counterexample: the claim's keep-criterion — "a HEAD request, falling
back to a truncated GET when HEAD fails, answers status < 400" (the
behavior of the source's own `_is_site_accessible`) — accepts
`https://a.com` under this oracle, yet `_ensure_https` drops the candidate
`http://a.com`, because the path actually used
(`_check_https_availability`) issues only the HEAD and treats its failure
as unavailable, with no GET fallback. -/
theorem claim_get_fallback_counterexample :
    is_site_accessible headFailGetOkEnv "https://a.com" = true ∧
    ensure_https headFailGetOkEnv "http://a.com" = none := ⟨rfl, rfl⟩

/-- C5 (amended): an already-`https` candidate is kept unchanged with no
network probe; any other candidate is rewritten `http://` → `https://` and
kept exactly when a single HEAD request on the rewritten URL answers a
status < 400 — a HEAD that raises, or answers ≥ 400, drops the candidate
(no GET fallback on this path; the result never depends on the GET oracle). -/
theorem ensure_https_spec (env : HttpEnv) (url : String) (s : Nat) :
    (urlScheme url = "https" →
      ensure_https env url = some url ∧ ensure_https_probes url = []) ∧
    (urlScheme url ≠ "https" → env.head (strReplace url "http://" "https://") = some s →
      s < 400 → ensure_https env url = some (strReplace url "http://" "https://")) ∧
    (urlScheme url ≠ "https" → env.head (strReplace url "http://" "https://") = some s →
      400 ≤ s → ensure_https env url = none) ∧
    (urlScheme url ≠ "https" → env.head (strReplace url "http://" "https://") = none →
      ensure_https env url = none) := by
  refine ⟨fun h => ⟨by simp [ensure_https, h], by simp [ensure_https_probes, h]⟩,
    fun h hh hs => ?_, fun h hh hs => ?_, fun h hh => ?_⟩
  · simp [ensure_https, h, check_https_availability, hh, hs]
  · have hs' : ¬ s < 400 := by omega
    simp [ensure_https, h, check_https_availability, hh, hs']
  · simp [ensure_https, h, check_https_availability, hh]

/-- Witness for the amended C5: an available HTTPS variant is kept. -/
theorem ensure_https_spec_witness :
    ensure_https okHttpEnv "http://b.com" = some "https://b.com" := by
  have h := (ensure_https_spec okHttpEnv "http://b.com" 200).2.1 (by decide) rfl (by decide)
  rw [h]
  decide

/-! ## C10: module-level entry points -/

theorem run_search_attempts_all_raise (k : Nat) :
    ∀ envs : List AttemptEnv, (∀ e ∈ envs, e.raises = true) →
      run_search_attempts k envs = [] := by
  intro envs
  induction envs with
  | nil => intro _; rfl
  | cons e rest ih =>
    intro h
    have he : e.raises = true := h e (List.mem_cons_self e rest)
    cases rest with
    | nil => simp [run_search_attempts, he]
    | cons e2 rest2 =>
      simp only [run_search_attempts, he, if_true]
      exact ih (fun x hx => h x (List.mem_cons_of_mem e hx))

/-- C10: the module-level entry points never propagate an exception —
`get_top_links` returns `(links, True)` for every non-raising collector run
(flag `true` even when every attempt raised and no candidate was inspected)
and `([], False)` exactly when an exception escapes the collector;
`get_yandex_links` returns the collector's list, and `[]` on an escaping
exception. -/
theorem entry_points_spec (envs : List AttemptEnv) (k : Nat) (msg : String)
    (run : Except String (List String)) :
    get_top_links (.ok (get_yandex_links_top envs k)) =
      (get_yandex_links_top envs k, true) ∧
    ((∀ e ∈ envs, e.raises = true) →
      get_top_links (.ok (get_yandex_links_top envs k)) = ([], true)) ∧
    get_top_links (.error msg) = ([], false) ∧
    get_yandex_links_entry (.error msg) = [] ∧
    (∀ l, run = .ok l → get_yandex_links_entry run = l) := by
  refine ⟨rfl, fun h => ?_, rfl, rfl, fun l hl => by simp [get_yandex_links_entry, hl]⟩
  have : get_yandex_links_top envs k = [] := by
    unfold get_yandex_links_top
    exact run_search_attempts_all_raise k _ (fun e he => h e (List.take_subset _ _ he))
  simp [get_top_links, this]

/-- An attempt in which the navigation step raises. -/
def raisingAttemptEnv : AttemptEnv :=
  { raises := true, page := none, http := noHttpEnv, batch := inertBatchEnv }

/-- Witness for C10: a collector run whose every attempt raised still
reports success with an empty list, while an escaping exception reports
failure. -/
theorem entry_points_spec_witness :
    get_top_links (.ok (get_yandex_links_top [raisingAttemptEnv] 10)) = ([], true) ∧
    get_top_links (.error "boom") = ([], false) :=
  ⟨(entry_points_spec [raisingAttemptEnv] 10 "boom" (.ok [])).2.1
      (by intro e he; simp only [List.mem_singleton] at he; subst he; rfl),
   (entry_points_spec [raisingAttemptEnv] 10 "boom" (.ok [])).2.2.1⟩

/-! ## C3 and C9: the captcha loop and the solving-service client -/

/-- A cycle whose mid-loop solved check is negative never takes the
mid-loop `break`, whatever the service does. -/
theorem cycle_body_not_break (p : CaptchaPage) (senv : CapsolaEnv)
    (h : p.solvedMid = false) : cycle_body p senv ≠ Except.ok true := by
  unfold cycle_body
  split_ifs <;> simp_all

/-- The captcha loop never runs more cycles than its fuel allows. -/
theorem captcha_loop_le (env : CaptchaEnv) :
    ∀ fuel n, captcha_loop env n fuel ≤ n + fuel := by
  intro fuel
  induction fuel with
  | zero => intro n; simp [captcha_loop]
  | succ f ih =>
    intro n
    have hrec := ih (n + 1)
    simp only [captcha_loop]
    by_cases hf : (env.page n).formPresent
    · simp only [hf, if_true]
      cases hcb : cycle_body (env.page n) (env.service n) with
      | ok b =>
        cases b with
        | true => simp [hcb]
        | false =>
          by_cases hsa : (env.page n).solvedAfter <;> simp [hcb, hsa] <;> omega
      | error e =>
        by_cases hsa : (env.page n).solvedAfter <;> simp [hcb, hsa] <;> omega
    · simp [hf]

/-- One cycle on a form-present, unsolved page consumes exactly one unit of
the attempt budget and continues — independently of the solve round's
outcome (a failed service round counts like any other). -/
theorem captcha_loop_step (env : CaptchaEnv) (n fuel : Nat)
    (hf : (env.page n).formPresent = true) (hm : (env.page n).solvedMid = false)
    (ha : (env.page n).solvedAfter = false) :
    captcha_loop env n (fuel + 1) = captcha_loop env (n + 1) fuel := by
  simp only [captcha_loop, hf, if_true]
  cases hcb : cycle_body (env.page n) (env.service n) with
  | ok b =>
    cases b with
    | true => exact absurd hcb (cycle_body_not_break _ _ hm)
    | false => simp [ha]
  | error e => simp [ha]

/-- On a page that never resolves, the loop spends its whole fuel. -/
theorem captcha_loop_stuck (env : CaptchaEnv)
    (h : ∀ m, (env.page m).formPresent = true ∧ (env.page m).solvedMid = false ∧
      (env.page m).solvedAfter = false) :
    ∀ fuel n, captcha_loop env n fuel = n + fuel := by
  intro fuel
  induction fuel with
  | zero => intro n; simp [captcha_loop]
  | succ f ih =>
    intro n
    obtain ⟨hf, hm, ha⟩ := h n
    rw [captcha_loop_step env n f hf hm ha, ih (n + 1)]
    omega

/-- C3: when the captcha form stays present and the solved marker never
appears, `handle_captcha` executes exactly `CAPTCHA_MAX_ATTEMPTS = 5`
classify → solve → check cycles and returns normally to its caller (the
model's outcome type has no exception case because every internal exception
is caught); in general no run ever exceeds `CAPTCHA_MAX_ATTEMPTS` cycles. -/
theorem handle_captcha_bounded (env : CaptchaEnv)
    (hclick : env.clickVerificationRaises = false)
    (hform : env.formAppears = true)
    (h : ∀ m, (env.page m).formPresent = true ∧ (env.page m).solvedMid = false ∧
      (env.page m).solvedAfter = false) :
    handle_captcha env = .loopFinished CAPTCHA_MAX_ATTEMPTS ∧
    (∀ env' : CaptchaEnv, ∀ c, handle_captcha env' = .loopFinished c →
      c ≤ CAPTCHA_MAX_ATTEMPTS) := by
  constructor
  · have hs := captcha_loop_stuck env h CAPTCHA_MAX_ATTEMPTS 0
    simp [handle_captcha, hclick, hform, hs]
  · intro env' c hc
    have hle := captcha_loop_le env' CAPTCHA_MAX_ATTEMPTS 0
    unfold handle_captcha at hc
    cases hcv : env'.clickVerificationRaises with
    | true => rw [hcv] at hc; simp at hc
    | false =>
      rw [hcv] at hc
      cases hfa : env'.formAppears with
      | false => rw [hfa] at hc; simp at hc
      | true =>
        rw [hfa] at hc
        simp at hc
        omega

/-- A page fixture on which the challenge never resolves. -/
def stuckCaptchaPage : CaptchaPage :=
  { formPresent := true, isImage := false, isText := false, isPuzzle := false,
    solvedMid := false, solvedAfter := false, bodyRaises := false }

/-- A service environment whose every call fails. -/
def failingServiceEnv : CapsolaEnv :=
  { apiKey := true, imgFetch := some (), createResp := .apiRaise, pollResps := [] }

/-- The never-resolving challenge-page fixture. -/
def stuckCaptchaEnv : CaptchaEnv :=
  { clickVerificationRaises := false, formAppears := true,
    page := fun _ => stuckCaptchaPage, service := fun _ => failingServiceEnv }

/-- Witness for C3 on the never-resolving fixture. -/
theorem handle_captcha_bounded_witness :
    handle_captcha stuckCaptchaEnv = .loopFinished CAPTCHA_MAX_ATTEMPTS ∧
    (∀ env' : CaptchaEnv, ∀ c, handle_captcha env' = .loopFinished c →
      c ≤ CAPTCHA_MAX_ATTEMPTS) :=
  handle_captcha_bounded stuckCaptchaEnv rfl rfl (fun _ => ⟨rfl, rfl, rfl⟩)

/-- C9: a challenge-service error, exception, or malformed response (a
failed task creation or a failed/errored poll) makes `solve_captcha` return
a `success = false` response normally instead of raising, for each of the
three challenge types; and such a failed round still consumes exactly one
unit of the `CAPTCHA_MAX_ATTEMPTS` budget in `handle_captcha`'s loop, which
continues normally (no exception reaches the caller: the loop equation
holds for every service behavior). -/
theorem solve_captcha_error_spec (env : CapsolaEnv) (ctype : String)
    (hc : ctype = "smart" ∨ ctype = "text" ∨ ctype = "puzzle")
    (herr : create_task env.createResp = none ∨ get_result env.pollResps = none) :
    (solve_captcha env ctype).success = false ∧
    (∀ (cenv : CaptchaEnv) (n fuel : Nat),
      (cenv.page n).formPresent = true → (cenv.page n).solvedMid = false →
      (cenv.page n).solvedAfter = false →
      captcha_loop cenv n (fuel + 1) = captcha_loop cenv (n + 1) fuel) := by
  constructor
  · have himg : (solve_image_based_captcha env).success = false := by
      cases hi : env.imgFetch with
      | none => simp [solve_image_based_captcha, hi]
      | some u =>
        cases hcr : create_task env.createResp with
        | none => simp [solve_image_based_captcha, hi, hcr]
        | some t =>
          have hgr : get_result env.pollResps = none := by
            rcases herr with h | h
            · rw [hcr] at h; cases h
            · exact h
          simp [solve_image_based_captcha, hi, hcr, hgr]
    have hpz : (solve_puzzle_captcha env).success = false := by
      cases hcr : create_task env.createResp with
      | none => simp [solve_puzzle_captcha, hcr]
      | some t =>
        have hgr : get_result env.pollResps = none := by
          rcases herr with h | h
          · rw [hcr] at h; cases h
          · exact h
        simp [solve_puzzle_captcha, hcr, hgr]
    cases hk : env.apiKey with
    | false => simp [solve_captcha, hk]
    | true => rcases hc with h | h | h <;> subst h <;> simp [solve_captcha, hk, himg, hpz]
  · exact fun cenv n fuel hf hm ha => captcha_loop_step cenv n fuel hf hm ha

/-- Witness for C9: a service whose task creation raises. -/
theorem solve_captcha_error_spec_witness :
    (solve_captcha failingServiceEnv "smart").success = false ∧
    (∀ (cenv : CaptchaEnv) (n fuel : Nat),
      (cenv.page n).formPresent = true → (cenv.page n).solvedMid = false →
      (cenv.page n).solvedAfter = false →
      captcha_loop cenv n (fuel + 1) = captcha_loop cenv (n + 1) fuel) :=
  solve_captcha_error_spec failingServiceEnv "smart" (Or.inl rfl) (Or.inl rfl)

/-! ## C4: worker stall handling -/

/-- C4: in the worker loop, an attempt whose measured duration exceeds
`MAX_TIMEOUT_PER_REQUEST = 300` seconds quits the current session and
creates exactly one fresh one before the next attempt, writes nothing to
the result sink (the stalled attempt's links are discarded), and still
consumes one of the `MAX_ATTEMPTS_PER_QUERY = 3` attempts (the remaining
fuel drops by one). -/
theorem worker_stall_spec (env : Nat → AttemptResult) (i fuel : Nat) (st : WorkerState)
    (hstall : MAX_TIMEOUT_PER_REQUEST < (env i).elapsed) :
    worker_attempts env i (fuel + 1) st =
      worker_attempts env (i + 1) fuel
        { st with sessionsCreated := st.sessionsCreated + 1 } ∧
    WorkerState.sink { st with sessionsCreated := st.sessionsCreated + 1 } = st.sink ∧
    MAX_ATTEMPTS_PER_QUERY = 3 ∧ MAX_TIMEOUT_PER_REQUEST = 300 := by
  refine ⟨?_, rfl, rfl, rfl⟩
  simp [worker_attempts, hstall]

/-- An attempt that stalls (301 s > 300 s) while reporting links. -/
def stallAttempt : AttemptResult := { elapsed := 301, links := ["x"], ok := true }

/-- Witness for C4: a stalled first attempt replaces the session, keeps the
sink empty and leaves two attempts of budget. -/
theorem worker_stall_spec_witness :
    worker_attempts (fun _ => stallAttempt) 0 3 { sessionsCreated := 0, sink := [] } =
      worker_attempts (fun _ => stallAttempt) 1 2 { sessionsCreated := 1, sink := [] } ∧
    WorkerState.sink { sessionsCreated := 1, sink := ([] : List String) } = [] ∧
    MAX_ATTEMPTS_PER_QUERY = 3 ∧ MAX_TIMEOUT_PER_REQUEST = 300 :=
  worker_stall_spec (fun _ => stallAttempt) 0 2 { sessionsCreated := 0, sink := [] }
    (by decide)

/-! ## C6 and C7: the batched metrika check -/

/-- Every input URL of a batch receives a verdict, in order: the batch is
never aborted by an individual failure. -/
theorem check_sites_batch_urls (env : BatchEnv) :
    ∀ (urls : List String) (st : BatchState),
      ((check_sites_batch env st urls).1.map (fun r => r.1)) = urls := by
  intro urls
  induction urls with
  | nil => intro st; rfl
  | cons url rest ih =>
    intro st
    simp only [check_sites_batch]
    by_cases hq : quick_check_via_requests env url
    · rcases hrec : check_sites_batch env st rest with ⟨res, st'⟩
      have hres := ih st
      rw [hrec] at hres
      simp [hq, hrec, hres]
    · rcases hcw : check_via_shared_webdriver env st url with ⟨v, st1, n⟩
      rcases hrec : check_sites_batch env st1 rest with ⟨res, st'⟩
      have hres := ih st1
      rw [hrec] at hres
      simp [hq, hcw, hrec, hres]

/-- A URL whose static quick check succeeds is marked valid with zero
browser navigations. -/
theorem check_sites_batch_quick (env : BatchEnv) :
    ∀ (urls : List String) (st : BatchState),
      ∀ r ∈ (check_sites_batch env st urls).1,
        quick_check_via_requests env r.1 = true → r.2.1 = true ∧ r.2.2 = 0 := by
  intro urls
  induction urls with
  | nil => intro st r hr; cases hr
  | cons url rest ih =>
    intro st r hr hrq
    by_cases hq : quick_check_via_requests env url
    · rcases hrec : check_sites_batch env st rest with ⟨res, st'⟩
      have hstep : check_sites_batch env st (url :: rest) = ((url, true, 0) :: res, st') := by
        rw [check_sites_batch, hrec]
        simp [hq]
      rw [hstep] at hr
      rcases List.mem_cons.mp hr with h | h
      · subst h; exact ⟨rfl, rfl⟩
      · exact ih st r (by rw [hrec]; exact h) hrq
    · rcases hcw : check_via_shared_webdriver env st url with ⟨v, st1, n⟩
      rcases hrec : check_sites_batch env st1 rest with ⟨res, st'⟩
      have hstep : check_sites_batch env st (url :: rest) = ((url, v, n) :: res, st') := by
        rw [check_sites_batch, hcw]
        simp [hq, hrec]
      rw [hstep] at hr
      rcases List.mem_cons.mp hr with h | h
      · subst h
        exact absurd hrq (by simpa using hq)
      · exact ih st1 r (by rw [hrec]; exact h) hrq

/-- C6: in the batch check, a URL whose plain HTTP fetch succeeds with
status 200 and whose body matches a metrika signature is marked valid via
the static path alone — zero browser navigations for that URL — and every
batch entry keeps its URL (one verdict per input). -/
theorem batch_static_path_spec (env : BatchEnv) (st : BatchState) (urls : List String) :
    ((check_sites_batch env st urls).1.map (fun r => r.1) = urls) ∧
    (∀ r ∈ (check_sites_batch env st urls).1,
      quick_check_via_requests env r.1 = true → r.2.1 = true ∧ r.2.2 = 0) :=
  ⟨check_sites_batch_urls env urls st, check_sites_batch_quick env urls st⟩

/-- A batch oracle whose static fetch always answers 200 with a signature
body and whose browser always faults. -/
def staticOkBatchEnv : BatchEnv :=
  { quick := fun _ => some (200, "sig"), hasMetrikaSrc := fun s => s == "sig",
    nav := fun _ _ => .failure, newDriver := fun _ => none, initDriver := some 0 }

/-- Witness for C6 on a one-URL batch validated statically. -/
theorem batch_static_path_spec_witness :
    ((check_sites_batch staticOkBatchEnv ⟨0, 0⟩ ["a.com"]).1.map (fun r => r.1) =
      ["a.com"]) ∧
    (∀ r ∈ (check_sites_batch staticOkBatchEnv ⟨0, 0⟩ ["a.com"]).1,
      quick_check_via_requests staticOkBatchEnv r.1 = true → r.2.1 = true ∧ r.2.2 = 0) :=
  batch_static_path_spec staticOkBatchEnv ⟨0, 0⟩ ["a.com"]

/-- C7: per-URL error isolation and shared-session recovery in the batch
check — every input URL receives a verdict (no abort); a transport or
automation error on one URL yields `false` for that URL only, with the
shared session untouched; a fatal WebDriver fault yields `false` for that
URL and recreates the single shared session, which is the one used for the
remaining URLs of the batch. -/
theorem batch_error_isolation_spec (env : BatchEnv) (st : BatchState) (url : String)
    (urls rest : List String) (d : Nat) :
    ((check_sites_batch env st urls).1.map (fun r => r.1) = urls) ∧
    (env.nav st.driver (normalizeUrl url) = .timeout ∨
        env.nav st.driver (normalizeUrl url) = .failure →
      check_via_shared_webdriver env st url = (false, st, 1)) ∧
    (env.nav st.driver (normalizeUrl url) = .wdError →
      env.newDriver st.created = some d →
      check_via_shared_webdriver env st url = (false, ⟨d, st.created + 1⟩, 1)) ∧
    (quick_check_via_requests env url = false →
      env.nav st.driver (normalizeUrl url) = .wdError →
      env.newDriver st.created = some d →
      (check_sites_batch env st (url :: rest)).1 =
        (url, false, 1) :: (check_sites_batch env ⟨d, st.created + 1⟩ rest).1) := by
  refine ⟨check_sites_batch_urls env urls st, ?_, ?_, ?_⟩
  · rintro (hn | hn) <;> simp [check_via_shared_webdriver, hn]
  · intro hn hd
    simp [check_via_shared_webdriver, hn, hd]
  · intro hq hn hd
    rcases hrec : check_sites_batch env ⟨d, st.created + 1⟩ rest with ⟨res, st'⟩
    simp [check_sites_batch, hq, check_via_shared_webdriver, hn, hd, hrec]

/-- A batch oracle whose static fetch raises and whose browser hits a fatal
WebDriver fault, recreation succeeding with fresh session ids. -/
def wdFaultBatchEnv : BatchEnv :=
  { quick := fun _ => none, hasMetrikaSrc := fun _ => false,
    nav := fun _ _ => .wdError, newDriver := fun k => some (k + 7), initDriver := some 0 }

/-- Witness for C7: a fatal WebDriver fault on the only URL marks it
invalid and recreates the shared session. -/
theorem batch_error_isolation_spec_witness :
    ((check_sites_batch wdFaultBatchEnv ⟨0, 0⟩ ["u.com"]).1.map (fun r => r.1) =
      ["u.com"]) ∧
    check_via_shared_webdriver wdFaultBatchEnv ⟨0, 0⟩ "u.com" = (false, ⟨7, 1⟩, 1) ∧
    (check_sites_batch wdFaultBatchEnv ⟨0, 0⟩ ["u.com"]).1 =
      ("u.com", false, 1) :: (check_sites_batch wdFaultBatchEnv ⟨7, 1⟩ []).1 :=
  ⟨(batch_error_isolation_spec wdFaultBatchEnv ⟨0, 0⟩ "u.com" ["u.com"] [] 7).1,
   (batch_error_isolation_spec wdFaultBatchEnv ⟨0, 0⟩ "u.com" ["u.com"] [] 7).2.2.1
      rfl rfl,
   (batch_error_isolation_spec wdFaultBatchEnv ⟨0, 0⟩ "u.com" ["u.com"] [] 7).2.2.2
      rfl rfl rfl⟩

end Zapros
